import Mathlib

/-!
Shallow embedding of the service worker in src/sw.js.

The worker consists of three handlers over the Cache Storage API:
an install handler that pre-populates a static cache with CORE_ASSETS,
an activate handler that deletes every cache whose name is neither
CACHE_NAME nor STATIC_CACHE, and a fetch handler implementing a
cache-first, network-fallback policy with write-through of eligible
responses into CACHE_NAME and a root-document fallback for navigations.

The cache storage is a list of named namespaces, each a list of
url-to-response entries.  Promises are modelled by explicit Except
results; the platform environment (possible cache-read failure, the
network) is passed in explicitly.  The result of a handler records the
value its waitUntil or respondWith promise settles with, the store
after the handler ran, and bookkeeping flags (network consulted,
response written, skipWaiting or clients.claim called).
-/

/-- Dynamic cache namespace name, line 2 of sw.js. -/
def CACHE_NAME : String := "pre-prd-v1"

/-- Static cache namespace name, line 3 of sw.js. -/
def STATIC_CACHE : String := "pre-prd-static-v1"

/-- Assets cached at install time, lines 6-15 of sw.js. -/
def CORE_ASSETS : List String :=
  ["/",
   "/assets/global.css",
   "/assets/favicon.svg",
   "/assets/manifest.json",
   "https://cdn.jsdelivr.net/npm/daisyui@4.12.10/dist/full.min.css",
   "https://cdn.tailwindcss.com",
   "https://unpkg.com/htmx.org@1.9.12",
   "https://fonts.googleapis.com/css2?family=Inter:wght@300;400;500;600;700;800&display=swap"]

/-- A stored or fetched HTTP response: status, platform response type
    (the string compared against "basic" at line 88 of sw.js), and body. -/
structure Response where
  status : Nat
  rtype : String
  body : String
  deriving DecidableEq, Repr

/-- An intercepted request: method, url, and mode (the string compared
    against "navigate" at line 107 of sw.js). -/
structure Request where
  method : String
  url : String
  mode : String
  deriving DecidableEq, Repr

/-- One named cache of the Cache Storage, mapping urls to responses. -/
structure Namespace where
  name : String
  entries : List (String × Response)
  deriving DecidableEq, Repr

/-- Model of the chrome-extension url test at line 68 of sw.js, as a
    prefix test on the character list of the url. -/
def isExtensionUrl (u : String) : Bool :=
  "chrome-extension://".data.isPrefixOf u.data

/-- Lookup of a url inside one cache. -/
def nsLookup : List (String × Response) → String → Option Response
  | [], _ => none
  | e :: rest, u => if e.1 = u then some e.2 else nsLookup rest u

/-- Model of caches.match: first matching entry across all namespaces
    in order. -/
def cachesMatch : List Namespace → String → Option Response
  | [], _ => none
  | ns :: rest, u =>
    match nsLookup ns.entries u with
    | some r => some r
    | none => cachesMatch rest u

/-- Model of cache.put on the entry list: overwrite the entry for the
    url if present, otherwise add it. -/
def putEntries : List (String × Response) → String → Response → List (String × Response)
  | [], u, r => [(u, r)]
  | e :: rest, u, r => if e.1 = u then (u, r) :: rest else e :: putEntries rest u r

/-- Model of caches.open(name) followed by cache.put(url, r): write into
    the named cache, creating it if absent. -/
def putNS : List Namespace → String → String → Response → List Namespace
  | [], name, u, r => [⟨name, [(u, r)]⟩]
  | ns :: rest, name, u, r =>
    if ns.name = name then ⟨ns.name, putEntries ns.entries u r⟩ :: rest
    else ns :: putNS rest name u r

/-- Model of caches.open(name) alone: create the named cache if absent. -/
def openNS : List Namespace → String → List Namespace
  | [], name => [⟨name, []⟩]
  | ns :: rest, name => if ns.name = name then ns :: rest else ns :: openNS rest name

/-- Platform environment of one fetch interception: matchErr injects a
    rejection of caches.match (a store read fault), net is the network.
    A network fetch either rejects (error), or resolves with an optional
    response (none models the null response guarded at line 86 of sw.js). -/
structure Env where
  matchErr : Option Nat
  net : Request → Except Nat (Option Response)

/-- Outcome of the fetch event: passthrough when respondWith was never
    called (non-GET or extension url), otherwise the settlement of the
    promise given to respondWith (ok none = resolved with no response). -/
inductive FetchResult where
  | passthrough
  | respond (r : Except Nat (Option Response))

/-- Full observable outcome of one fetch interception. -/
structure HandleOut where
  result : FetchResult
  store : List Namespace
  networkUsed : Bool
  wrote : Option Response

/-- The fetch handler, lines 61-115 of sw.js, translated branch by
    branch: skip non-GET and chrome-extension requests; otherwise
    caches.match (whose rejection, having no handler in the source,
    propagates); on a hit return the cached response; on a miss fetch
    from network; cache the response in CACHE_NAME only when it is
    non-null with status 200 and type "basic"; on network rejection
    fall back to caches.match("/") for navigations and rethrow the
    error otherwise. -/
def handleFetch (env : Env) (s : List Namespace) (req : Request) : HandleOut :=
  if req.method ≠ "GET" then ⟨FetchResult.passthrough, s, false, none⟩
  else if isExtensionUrl req.url then ⟨FetchResult.passthrough, s, false, none⟩
  else
    match env.matchErr with
    | some e => ⟨FetchResult.respond (Except.error e), s, false, none⟩
    | none =>
      match cachesMatch s req.url with
      | some cached => ⟨FetchResult.respond (Except.ok (some cached)), s, false, none⟩
      | none =>
        match env.net req with
        | Except.ok none => ⟨FetchResult.respond (Except.ok none), s, true, none⟩
        | Except.ok (some resp) =>
          if resp.status ≠ 200 ∨ resp.rtype ≠ "basic" then
            ⟨FetchResult.respond (Except.ok (some resp)), s, true, none⟩
          else
            ⟨FetchResult.respond (Except.ok (some resp)),
              putNS s CACHE_NAME req.url resp, true, some resp⟩
        | Except.error e =>
          if req.mode = "navigate" then
            ⟨FetchResult.respond (Except.ok (cachesMatch s "/")), s, true, none⟩
          else
            ⟨FetchResult.respond (Except.error e), s, true, none⟩

/-- Outcome of the install event: the settlement of the waitUntil
    promise (the instance is marked successfully installed exactly when
    it resolves), the store afterwards, and whether skipWaiting ran. -/
structure InstallOut where
  result : Except Nat Unit
  store : List Namespace
  skipWaitingCalled : Bool

/-- Model of fetching every manifest url; the first rejection rejects
    the whole batch, as with the Promise.all inside cache.addAll. -/
def fetchAll (net : String → Except Nat Response) :
    List String → Except Nat (List (String × Response))
  | [] => Except.ok []
  | u :: rest =>
    match net u with
    | Except.error e => Except.error e
    | Except.ok r =>
      match fetchAll net rest with
      | Except.error e => Except.error e
      | Except.ok ps => Except.ok ((u, r) :: ps)

/-- Model of cache.addAll(CORE_ASSETS) on the static cache: fetch all
    entries, and commit them as a batch only when every fetch succeeded. -/
def addAll (net : String → Except Nat Response) (s : List Namespace)
    (urls : List String) : Except Nat (List Namespace) :=
  match fetchAll net urls with
  | Except.error e => Except.error e
  | Except.ok ps => Except.ok (ps.foldl (fun st p => putNS st STATIC_CACHE p.1 p.2) s)

/-- The install handler, lines 18-35 of sw.js: open STATIC_CACHE, addAll
    the core assets, then skipWaiting; the catch at line 31 logs any
    error and resolves, so the waitUntil promise never rejects. -/
def installHandler (net : String → Except Nat Response) (s : List Namespace) : InstallOut :=
  let s1 := openNS s STATIC_CACHE
  match addAll net s1 CORE_ASSETS with
  | Except.ok s2 => ⟨Except.ok (), s2, true⟩
  | Except.error _ => ⟨Except.ok (), s1, false⟩

/-- Outcome of the activate event: settlement of the waitUntil promise,
    the store afterwards, and whether clients.claim ran. -/
structure ActivateOut where
  result : Except Nat Unit
  store : List Namespace
  claimCalled : Bool

/-- The activate handler, lines 38-58 of sw.js, parameterised by the two
    current namespace names (dyn = CACHE_NAME, stat = STATIC_CACHE; a
    version bump is a run with the bumped names) and by the set of
    failing deletes f.  The map at line 45 starts a delete for every
    name outside the current pair before Promise.all awaits any, so
    every stale namespace whose delete does not fail is removed even
    when another delete fails; if some delete fails, Promise.all rejects
    and clients.claim is skipped. -/
def activateHandler (f : String → Bool) (dyn stat : String)
    (s : List Namespace) : ActivateOut :=
  if s.any (fun ns => !(ns.name == dyn) && !(ns.name == stat) && f ns.name) then
    ⟨Except.error 0,
      s.filter (fun ns => ns.name == dyn || ns.name == stat || f ns.name), false⟩
  else
    ⟨Except.ok (),
      s.filter (fun ns => ns.name == dyn || ns.name == stat || f ns.name), true⟩

/-- The activate handler with the constants of sw.js lines 2-3. -/
def activateCurrent (f : String → Bool) (s : List Namespace) : ActivateOut :=
  activateHandler f CACHE_NAME STATIC_CACHE s

/-- A delete oracle under which no delete fails. -/
def noDeleteFail : String → Bool := fun _ => false

/-! Concrete fixtures used by witnesses and counterexamples. -/

/-- A same-origin 200 response. -/
def respW : Response := ⟨200, "basic", "hello"⟩

/-- An ineligible (status 404) response. -/
def respBad : Response := ⟨404, "basic", "nope"⟩

/-- A plain GET sub-resource request. -/
def reqW : Request := ⟨"GET", "/app.js", "cors"⟩

/-- A GET navigation request. -/
def navReq : Request := ⟨"GET", "/page", "navigate"⟩

/-- A store holding reqW in the dynamic namespace. -/
def storeW : List Namespace := [⟨CACHE_NAME, [("/app.js", respW)]⟩]

/-- The root document cached in the static namespace. -/
def rootResp : Response := ⟨200, "basic", "index"⟩

/-- A store holding only the root document. -/
def rootStore : List Namespace := [⟨STATIC_CACHE, [("/", rootResp)]⟩]

/-- Environment with a working cache and an unreachable network. -/
def envOffline : Env := ⟨none, fun _ => Except.error 9⟩

/-- Environment whose network always answers with respW. -/
def envOk : Env := ⟨none, fun _ => Except.ok (some respW)⟩

/-- Environment whose network always answers with respBad. -/
def envBad : Env := ⟨none, fun _ => Except.ok (some respBad)⟩

/-! Helper lemmas about the fetch handler and the store operations. -/

/-- On a cache hit the handler returns the stored response, leaves the
    store alone and never touches the network. -/
lemma handleFetch_hit (env : Env) (s : List Namespace) (req : Request) (r : Response)
    (hm : req.method = "GET") (hx : isExtensionUrl req.url = false)
    (he : env.matchErr = none) (hc : cachesMatch s req.url = some r) :
    handleFetch env s req = ⟨FetchResult.respond (Except.ok (some r)), s, false, none⟩ := by
  simp [handleFetch, hm, hx, he, hc]

/-- After putEntries, looking up the written url finds the written
    response. -/
lemma nsLookup_putEntries (es : List (String × Response)) (u : String) (r : Response) :
    nsLookup (putEntries es u r) u = some r := by
  induction es with
  | nil => simp [putEntries, nsLookup]
  | cons e rest ih =>
    by_cases h : e.1 = u
    · simp [putEntries, h, nsLookup]
    · simp [putEntries, h, nsLookup, ih]

/-- Writing a previously missing url into any namespace makes it
    reachable through cachesMatch. -/
lemma cachesMatch_putNS (s : List Namespace) (name u : String) (r : Response)
    (h : cachesMatch s u = none) :
    cachesMatch (putNS s name u r) u = some r := by
  induction s with
  | nil => simp [putNS, cachesMatch, nsLookup]
  | cons ns rest ih =>
    have h1 : nsLookup ns.entries u = none := by
      cases hh : nsLookup ns.entries u with
      | none => rfl
      | some x => simp [cachesMatch, hh] at h
    have h2 : cachesMatch rest u = none := by
      simpa [cachesMatch, h1] using h
    by_cases hn : ns.name = name
    · simp [putNS, hn, cachesMatch, nsLookup_putEntries]
    · simp [putNS, hn, cachesMatch, h1, ih h2]

/-! Claim theorems. -/

/-- Claim C1: for every GET request whose identity has a stored match in
    any cache namespace, the fetch interceptor returns the stored
    response as the exclusive answer, leaves the store unchanged, and
    performs no network fetch for that request. -/
theorem c1_cached_get_is_exclusive_answer (env : Env) (s : List Namespace)
    (req : Request) (r : Response)
    (hm : req.method = "GET") (hx : isExtensionUrl req.url = false)
    (he : env.matchErr = none) (hc : cachesMatch s req.url = some r) :
    handleFetch env s req = ⟨FetchResult.respond (Except.ok (some r)), s, false, none⟩ :=
  handleFetch_hit env s req r hm hx he hc

/-- Witness for C1: a concrete cache hit served with the network
    unreachable. -/
theorem c1_witness :
    handleFetch envOffline storeW reqW =
      ⟨FetchResult.respond (Except.ok (some respW)), storeW, false, none⟩ :=
  c1_cached_get_is_exclusive_answer envOffline storeW reqW respW rfl rfl rfl rfl

/-- Claim C6: a navigation request with no stored match of its own whose
    network fetch rejects resolves with the stored response for the root
    document rather than an error. -/
theorem c6_navigation_falls_back_to_root (env : Env) (s : List Namespace)
    (req : Request) (e : Nat) (root : Response)
    (hm : req.method = "GET") (hx : isExtensionUrl req.url = false)
    (he : env.matchErr = none) (hc : cachesMatch s req.url = none)
    (hn : env.net req = Except.error e) (hv : req.mode = "navigate")
    (hr : cachesMatch s "/" = some root) :
    handleFetch env s req = ⟨FetchResult.respond (Except.ok (some root)), s, true, none⟩ := by
  simp [handleFetch, hm, hx, he, hc, hn, hv, hr]

/-- Witness for C6: a concrete offline navigation served the cached root
    document. -/
theorem c6_witness :
    handleFetch envOffline rootStore navReq =
      ⟨FetchResult.respond (Except.ok (some rootResp)), rootStore, true, none⟩ :=
  c6_navigation_falls_back_to_root envOffline rootStore navReq 9 rootResp
    rfl rfl rfl rfl rfl rfl rfl

/-- Claim C7: a non-navigation request with no stored match whose
    network fetch rejects propagates the original failure unchanged; no
    substitute response is produced. -/
theorem c7_subresource_failure_propagates (env : Env) (s : List Namespace)
    (req : Request) (e : Nat)
    (hm : req.method = "GET") (hx : isExtensionUrl req.url = false)
    (he : env.matchErr = none) (hc : cachesMatch s req.url = none)
    (hn : env.net req = Except.error e) (hv : req.mode ≠ "navigate") :
    handleFetch env s req = ⟨FetchResult.respond (Except.error e), s, true, none⟩ := by
  simp [handleFetch, hm, hx, he, hc, hn, hv]

/-- Witness for C7: a concrete offline sub-resource request rejecting
    with the original network error. -/
theorem c7_witness :
    handleFetch envOffline [] reqW =
      ⟨FetchResult.respond (Except.error 9), [], true, none⟩ :=
  c7_subresource_failure_propagates envOffline [] reqW 9 rfl rfl rfl rfl rfl (by decide)

/-- Claim C10: a navigation request whose network fetch rejects and
    whose root-document lookup also misses resolves with the empty
    result of that lookup (no response), not with the original error. -/
theorem c10_navigation_fallback_miss_resolves_empty (env : Env) (s : List Namespace)
    (req : Request) (e : Nat)
    (hm : req.method = "GET") (hx : isExtensionUrl req.url = false)
    (he : env.matchErr = none) (hc : cachesMatch s req.url = none)
    (hn : env.net req = Except.error e) (hv : req.mode = "navigate")
    (hr : cachesMatch s "/" = none) :
    handleFetch env s req = ⟨FetchResult.respond (Except.ok none), s, true, none⟩ := by
  simp [handleFetch, hm, hx, he, hc, hn, hv, hr]

/-- Witness for C10: a concrete offline navigation with an empty store
    resolving with no response. -/
theorem c10_witness :
    handleFetch envOffline [] navReq =
      ⟨FetchResult.respond (Except.ok none), [], true, none⟩ :=
  c10_navigation_fallback_miss_resolves_empty envOffline [] navReq 9
    rfl rfl rfl rfl rfl rfl rfl

/-- Claim C3: a previously-uncached GET request answered by the network
    with a status-200 basic response is persisted into the dynamic
    namespace keyed by the request url, and an immediately following
    identical request (under any environment whose cache reads work,
    even with the network unreachable) is served from the store with no
    network call. -/
theorem c3_write_through_round_trip (env env2 : Env) (s : List Namespace)
    (req : Request) (r : Response)
    (hm : req.method = "GET") (hx : isExtensionUrl req.url = false)
    (he : env.matchErr = none) (hc : cachesMatch s req.url = none)
    (hn : env.net req = Except.ok (some r)) (hs : r.status = 200)
    (ht : r.rtype = "basic") (he2 : env2.matchErr = none) :
    handleFetch env s req =
      ⟨FetchResult.respond (Except.ok (some r)), putNS s CACHE_NAME req.url r, true, some r⟩ ∧
    handleFetch env2 (putNS s CACHE_NAME req.url r) req =
      ⟨FetchResult.respond (Except.ok (some r)), putNS s CACHE_NAME req.url r, false, none⟩ := by
  constructor
  · simp [handleFetch, hm, hx, he, hc, hn, hs, ht]
  · exact handleFetch_hit env2 _ req r hm hx he2 (cachesMatch_putNS s CACHE_NAME req.url r hc)

/-- Witness for C3: a concrete first fetch stored and the identical
    second request served from the store while offline. -/
theorem c3_witness :
    handleFetch envOk [] reqW =
      ⟨FetchResult.respond (Except.ok (some respW)),
        putNS [] CACHE_NAME reqW.url respW, true, some respW⟩ ∧
    handleFetch envOffline (putNS [] CACHE_NAME reqW.url respW) reqW =
      ⟨FetchResult.respond (Except.ok (some respW)),
        putNS [] CACHE_NAME reqW.url respW, false, none⟩ :=
  c3_write_through_round_trip envOk envOffline [] reqW respW
    rfl rfl rfl rfl rfl rfl rfl rfl

/-! Claim C9.  The source attaches its catch to the network fetch chain
    only (line 103 of sw.js); a rejection of the caches.match at line 73
    has no handler, so the promise handed to respondWith rejects and the
    network is never consulted.  The claim that a failed cache read is
    treated as a cache miss therefore fails on the code. -/

/-- A GET request used to exhibit the cache-read failure. -/
def c9req : Request := ⟨"GET", "/data.json", "cors"⟩

/-- Environment whose cache read rejects with error 5 while the network
    is reachable and would answer 200 basic. -/
def c9env : Env := ⟨some 5, fun _ => Except.ok (some respW)⟩

/-- Counterexample to C9: with a failing cache read the handler performs
    no network fetch and rejects with the store error, even though the
    network would have answered. -/
theorem c9_counterexample :
    (handleFetch c9env [] c9req).networkUsed = false ∧
    (handleFetch c9env [] c9req).result = FetchResult.respond (Except.error 5) :=
  ⟨rfl, rfl⟩

/-- Claim C9 as amended: for every intercepted GET request, a failure of
    the cache lookup is not treated as a miss: the lookup error
    propagates to the caller, no network fetch occurs, and nothing is
    written. -/
theorem c9_cache_read_error_propagates (env : Env) (s : List Namespace)
    (req : Request) (e : Nat)
    (hm : req.method = "GET") (hx : isExtensionUrl req.url = false)
    (he : env.matchErr = some e) :
    handleFetch env s req = ⟨FetchResult.respond (Except.error e), s, false, none⟩ := by
  simp [handleFetch, hm, hx, he]

/-- Witness for the amended C9 at a concrete input. -/
theorem c9_witness :
    handleFetch c9env [] c9req =
      ⟨FetchResult.respond (Except.error 5), [], false, none⟩ :=
  c9_cache_read_error_propagates c9env [] c9req 5 rfl rfl rfl

/-! Claim C2.  The install handler catches the addAll rejection at line
    31 of sw.js and only logs it, so the promise given to waitUntil
    resolves: the instance is marked successfully installed although the
    manifest failed (skipWaiting alone is skipped).  The claim matches
    the stated invariant of the spec and the failure message logged by
    the code, and the code violates it. -/

/-- A network on which every manifest fetch rejects. -/
def c2net : String → Except Nat Response := fun _ => Except.error 3

/-- Claim C2, evaluated at the failing input: although cache.addAll
    rejects (every manifest entry is unfetchable), the install promise
    resolves, so the instance is marked successfully installed, contrary
    to the claim; only skipWaiting is skipped. -/
theorem c2_install_resolves_despite_failed_entry :
    addAll c2net (openNS [] STATIC_CACHE) CORE_ASSETS = Except.error 3 ∧
    (installHandler c2net []).result = Except.ok () ∧
    (installHandler c2net []).skipWaitingCalled = false :=
  ⟨rfl, rfl, rfl⟩

/-- Exhaustive case analysis of one fetch interception: either nothing
    is written and the store is unchanged, or the interception is the
    eligible write-through case. -/
lemma handleFetch_cases (env : Env) (s : List Namespace) (req : Request) :
    ((handleFetch env s req).wrote = none ∧ (handleFetch env s req).store = s) ∨
    (∃ r, (handleFetch env s req).wrote = some r ∧
      req.method = "GET" ∧ isExtensionUrl req.url = false ∧ env.matchErr = none ∧
      cachesMatch s req.url = none ∧ env.net req = Except.ok (some r) ∧
      r.status = 200 ∧ r.rtype = "basic" ∧
      handleFetch env s req =
        ⟨FetchResult.respond (Except.ok (some r)),
          putNS s CACHE_NAME req.url r, true, some r⟩) := by
  by_cases hm : req.method = "GET"
  · cases hx : isExtensionUrl req.url with
    | true => exact Or.inl (by simp [handleFetch, hm, hx])
    | false =>
      cases he : env.matchErr with
      | some e => exact Or.inl (by simp [handleFetch, hm, hx, he])
      | none =>
        cases hc : cachesMatch s req.url with
        | some cached => exact Or.inl (by simp [handleFetch, hm, hx, he, hc])
        | none =>
          cases hn : env.net req with
          | error e =>
            by_cases hv : req.mode = "navigate"
            · exact Or.inl (by simp [handleFetch, hm, hx, he, hc, hn, hv])
            · exact Or.inl (by simp [handleFetch, hm, hx, he, hc, hn, hv])
          | ok respOpt =>
            cases respOpt with
            | none => exact Or.inl (by simp [handleFetch, hm, hx, he, hc, hn])
            | some resp =>
              by_cases hel : resp.status ≠ 200 ∨ resp.rtype ≠ "basic"
              · exact Or.inl (by simp [handleFetch, hm, hx, he, hc, hn, hel])
              · push_neg at hel
                exact Or.inr ⟨resp,
                  by simp [handleFetch, hm, hx, he, hc, hn, hel.1, hel.2],
                  hm, rfl, rfl, rfl, rfl, hel.1, hel.2,
                  by simp [handleFetch, hm, hx, he, hc, hn, hel.1, hel.2]⟩
  · exact Or.inl (by simp [handleFetch, hm])

/-- Claim C4: over all fetch interceptions, a response is written to the
    dynamic namespace only when the request method is GET and the
    response has status exactly 200 and type basic; a network response
    failing the status or type test is returned to the caller unmodified
    and never persisted, and whenever nothing is written the store is
    unchanged. -/
theorem c4_dynamic_write_eligibility (env : Env) (s : List Namespace) (req : Request) :
    (∀ r, (handleFetch env s req).wrote = some r →
      req.method = "GET" ∧ r.status = 200 ∧ r.rtype = "basic" ∧
      env.net req = Except.ok (some r) ∧
      (handleFetch env s req).store = putNS s CACHE_NAME req.url r ∧
      (handleFetch env s req).result = FetchResult.respond (Except.ok (some r))) ∧
    ((handleFetch env s req).wrote = none → (handleFetch env s req).store = s) ∧
    (∀ r, req.method = "GET" → isExtensionUrl req.url = false →
      env.matchErr = none → cachesMatch s req.url = none →
      env.net req = Except.ok (some r) → (r.status ≠ 200 ∨ r.rtype ≠ "basic") →
      (handleFetch env s req).result = FetchResult.respond (Except.ok (some r)) ∧
      (handleFetch env s req).wrote = none ∧
      (handleFetch env s req).store = s) := by
  refine ⟨?_, ?_, ?_⟩
  · intro r h
    rcases handleFetch_cases env s req with ⟨h0, _⟩ | ⟨r2, hw, hm, hx, he, hc, hn, hs, ht, heq⟩
    · rw [h0] at h; exact absurd h (by simp)
    · have hr : r2 = r := by rw [hw] at h; exact Option.some.inj h
      subst hr
      exact ⟨hm, hs, ht, hn, by rw [heq], by rw [heq]⟩
  · intro h
    rcases handleFetch_cases env s req with ⟨_, h1⟩ | ⟨r2, hw, _⟩
    · exact h1
    · rw [hw] at h; exact absurd h (by simp)
  · intro r hm hx he hc hn hel
    refine ⟨?_, ?_, ?_⟩ <;> simp [handleFetch, hm, hx, he, hc, hn, hel]

/-- Witness for C4: a concrete eligible fetch is persisted, and a
    concrete 404 response is returned unmodified and not persisted. -/
theorem c4_witness :
    (handleFetch envOk [] reqW).store = putNS [] CACHE_NAME reqW.url respW ∧
    (handleFetch envBad [] reqW).result = FetchResult.respond (Except.ok (some respBad)) ∧
    (handleFetch envBad [] reqW).wrote = none ∧
    (handleFetch envBad [] reqW).store = [] := by
  have h1 := (c4_dynamic_write_eligibility envOk [] reqW).1 respW rfl
  have h3 := (c4_dynamic_write_eligibility envBad [] reqW).2.2 respBad
    rfl rfl rfl rfl rfl (by decide)
  exact ⟨h1.2.2.2.2.1, h3.1, h3.2.1, h3.2.2⟩

/-- The store after activation, in either branch of the Promise.all
    settlement: exactly the namespaces whose name is current or whose
    delete failed. -/
lemma activate_store_eq (f : String → Bool) (dyn stat : String) (s : List Namespace) :
    (activateHandler f dyn stat s).store =
      s.filter (fun ns => ns.name == dyn || ns.name == stat || f ns.name) := by
  unfold activateHandler
  split <;> rfl

/-- Claim C5: activation deletes every namespace present in the store
    whose name is neither the current dynamic nor the current static
    name, preserves namespaces bearing the current names with their
    contents, and completes; consequently, after a version bump no
    namespace bearing an old name (distinct from both current names)
    survives, so no pre-bump dynamic entry remains reachable. -/
theorem c5_activation_deletes_stale_preserves_current (dyn stat : String)
    (s : List Namespace) :
    (activateHandler noDeleteFail dyn stat s).result = Except.ok () ∧
    (∀ ns ∈ (activateHandler noDeleteFail dyn stat s).store,
      ns.name = dyn ∨ ns.name = stat) ∧
    (∀ ns ∈ s, (ns.name = dyn ∨ ns.name = stat) →
      ns ∈ (activateHandler noDeleteFail dyn stat s).store) ∧
    (∀ old : String, old ≠ dyn → old ≠ stat →
      ∀ ns ∈ (activateHandler noDeleteFail dyn stat s).store, ns.name ≠ old) := by
  have hany : s.any (fun ns =>
      !(ns.name == dyn) && !(ns.name == stat) && noDeleteFail ns.name) = false := by
    simp [noDeleteFail]
  have hmem : ∀ ns : Namespace, ns ∈ (activateHandler noDeleteFail dyn stat s).store ↔
      ns ∈ s ∧ (ns.name = dyn ∨ ns.name = stat) := by
    intro ns
    rw [activate_store_eq]
    simp [List.mem_filter, noDeleteFail]
  refine ⟨?_, ?_, ?_, ?_⟩
  · simp [activateHandler, hany]
  · intro ns hns
    exact ((hmem ns).1 hns).2
  · intro ns hns hkeep
    exact (hmem ns).2 ⟨hns, hkeep⟩
  · intro old hd hs2 ns hns heq
    rcases ((hmem ns).1 hns).2 with h | h
    · exact hd (heq.symm.trans h)
    · exact hs2 (heq.symm.trans h)

/-- A stale namespace from a previous version, holding an old dynamic
    entry. -/
def staleNS : Namespace := ⟨"pre-prd-v0", [("/x", respW)]⟩

/-- The current dynamic namespace, empty. -/
def curDynNS : Namespace := ⟨CACHE_NAME, []⟩

/-- The current static namespace with the root document. -/
def curStatNS : Namespace := ⟨STATIC_CACHE, [("/", rootResp)]⟩

/-- A store as found after a version bump: one stale namespace and the
    two current ones. -/
def oldStore : List Namespace := [staleNS, curDynNS, curStatNS]

/-- Witness for C5: activating over oldStore completes, keeps the
    current dynamic namespace and removes every namespace bearing the
    pre-bump name. -/
theorem c5_witness :
    (activateHandler noDeleteFail CACHE_NAME STATIC_CACHE oldStore).result = Except.ok () ∧
    curDynNS ∈ (activateHandler noDeleteFail CACHE_NAME STATIC_CACHE oldStore).store ∧
    (∀ ns ∈ (activateHandler noDeleteFail CACHE_NAME STATIC_CACHE oldStore).store,
      ns.name ≠ "pre-prd-v0") := by
  have h := c5_activation_deletes_stale_preserves_current CACHE_NAME STATIC_CACHE oldStore
  exact ⟨h.1, h.2.2.1 curDynNS (by decide) (Or.inl rfl),
    h.2.2.2 "pre-prd-v0" (by decide) (by decide)⟩

/-- Claim C8: a failing delete during activation cleanup is non-fatal
    per-namespace: every stale namespace whose own delete does not fail
    is still removed, whatever the other deletes do, and namespaces kept
    by the policy (current name, or stale with a failing delete) remain. -/
theorem c8_delete_failure_is_per_namespace (f : String → Bool) (dyn stat : String)
    (s : List Namespace) :
    (∀ ns ∈ s, ns.name ≠ dyn → ns.name ≠ stat → f ns.name = false →
      ns ∉ (activateHandler f dyn stat s).store) ∧
    (∀ ns ∈ s, (ns.name = dyn ∨ ns.name = stat ∨ f ns.name = true) →
      ns ∈ (activateHandler f dyn stat s).store) := by
  constructor
  · intro ns hns hd hs2 hf hcon
    rw [activate_store_eq] at hcon
    rcases List.mem_filter.1 hcon with ⟨-, hp⟩
    simp only [Bool.or_eq_true, beq_iff_eq, hf] at hp
    tauto
  · intro ns hns hkeep
    rw [activate_store_eq]
    refine List.mem_filter.2 ⟨hns, ?_⟩
    simp only [Bool.or_eq_true, beq_iff_eq]
    tauto

/-- Delete oracle failing exactly on the v0 namespace name. -/
def failOnV0 : String → Bool := fun n => n == "pre-prd-v0"

/-- Another stale namespace whose delete succeeds. -/
def staleNS2 : Namespace := ⟨"pre-prd-old", []⟩

/-- A store with one stale namespace whose delete fails, one whose
    delete succeeds, and the current dynamic namespace. -/
def mixedStore : List Namespace := [staleNS, staleNS2, curDynNS]

/-- Witness for C8: with the delete of the v0 namespace failing, the
    other stale namespace is still deleted and the current one kept. -/
theorem c8_witness :
    staleNS2 ∉ (activateHandler failOnV0 CACHE_NAME STATIC_CACHE mixedStore).store ∧
    staleNS ∈ (activateHandler failOnV0 CACHE_NAME STATIC_CACHE mixedStore).store ∧
    curDynNS ∈ (activateHandler failOnV0 CACHE_NAME STATIC_CACHE mixedStore).store := by
  have h := c8_delete_failure_is_per_namespace failOnV0 CACHE_NAME STATIC_CACHE mixedStore
  exact ⟨h.1 staleNS2 (by decide) (by decide) (by decide) (by decide),
    h.2 staleNS (by decide) (Or.inr (Or.inr (by decide))),
    h.2 curDynNS (by decide) (Or.inl rfl)⟩
